import Mathlib

/-
Verification of the websocket client bootstrap (source/websocket_bootstrap.c)
of aws-c-http, via a shallow embedding of its data model and operations.

Modelling conventions:
- C pointers that are only tested for NULL-ness (allocator, callbacks, ...)
  become Bool (true = non-NULL).
- Byte strings (aws_byte_cursor contents) become List Nat, one Nat per byte.
- Error codes become Nat, 0 meaning AWS_ERROR_SUCCESS / "no error".
- HTTP status codes become Int (enum aws_http_status has
  AWS_HTTP_STATUS_UNKNOWN = -1).
- Heap allocations of the growable response buffer carry an allocation
  identity (allocId); a reallocation produces a fresh identity, so a stored
  raw pointer is modelled as (allocId, offset) and resolving it against a
  buffer with a different identity fails (the C behavior is a read through
  a pointer into released memory).
-/

/-- Error-code constant from aws-c-common (not part of src/): only its
non-zero-ness and distinctness from other codes matter to the claims. -/
def AWS_ERROR_INVALID_ARGUMENT : Nat := 34

/-- Error-code constant from aws-c-common (not part of src/): only its
non-zero-ness matters to the claims. -/
def AWS_ERROR_UNKNOWN : Nat := 1

/-- Error-code constant from aws-c-http (not part of src/): only its
non-zero-ness and distinctness matter to the claims. -/
def AWS_ERROR_HTTP_WEBSOCKET_UPGRADE_FAILURE : Nat := 2062

/-- Status constant from enum aws_http_status (not part of src/). -/
def AWS_HTTP_STATUS_UNKNOWN : Int := -1

/-- Status constant from enum aws_http_status (not part of src/). -/
def AWS_HTTP_STATUS_101_SWITCHING_PROTOCOLS : Int := 101

/-- The fields of aws_websocket_client_connection_options that the
synchronous validation phase of aws_websocket_client_connect inspects.
Pointer-valued fields are modelled as Bool (non-NULL-ness); the field name
num_handhake_headers keeps the source's spelling. -/
structure ConnectOptions where
  allocator : Bool
  bootstrap : Bool
  socket_options : Bool
  uri : Bool
  on_connection_setup : Bool
  on_connection_shutdown : Bool
  on_incoming_frame_begin : Bool
  on_incoming_frame_payload : Bool
  on_incoming_frame_complete : Bool
  handshake_header_array : Bool
  num_handhake_headers : Nat
deriving DecidableEq

/-- Embedding of the synchronous validation phase of
aws_websocket_client_connect (websocket_bootstrap.c lines 92-123).
Returns some errorCode when the call synchronously rejects the options,
none when validation passes.  The frame-callback test reproduces the
source exactly: all_frame_callbacks_set and no_frame_callbacks_set both
test on_incoming_frame_begin twice (and never on_incoming_frame_complete),
and the function rejects when all_frame_callbacks_set OR
no_frame_callbacks_set holds. -/
def aws_websocket_client_connect_validate (o : ConnectOptions) : Option Nat :=
  if ¬o.allocator ∨ ¬o.bootstrap ∨ ¬o.socket_options ∨ ¬o.uri ∨ ¬o.on_connection_setup then
    some AWS_ERROR_INVALID_ARGUMENT
  else
    let all_frame_callbacks_set :=
      o.on_incoming_frame_begin && o.on_incoming_frame_payload && o.on_incoming_frame_begin
    let no_frame_callbacks_set :=
      !o.on_incoming_frame_begin && !o.on_incoming_frame_payload && !o.on_incoming_frame_begin
    if all_frame_callbacks_set || no_frame_callbacks_set then
      some AWS_ERROR_INVALID_ARGUMENT
    else if ¬o.handshake_header_array ∨ o.num_handhake_headers = 0 then
      some AWS_ERROR_INVALID_ARGUMENT
    else
      none

/-- The claim's notion of a partially specified frame-callback group:
not all three of begin/payload/complete set, and not none of them set. -/
def frameCallbacksPartiallySpecified (o : ConnectOptions) : Bool :=
  !((o.on_incoming_frame_begin && o.on_incoming_frame_payload && o.on_incoming_frame_complete) ||
    (!o.on_incoming_frame_begin && !o.on_incoming_frame_payload && !o.on_incoming_frame_complete))

/-- A configuration with every required option present, one handshake
header, and all three frame callbacks set. -/
def optsAllFrames : ConnectOptions :=
  { allocator := true, bootstrap := true, socket_options := true, uri := true,
    on_connection_setup := true, on_connection_shutdown := true,
    on_incoming_frame_begin := true, on_incoming_frame_payload := true,
    on_incoming_frame_complete := true,
    handshake_header_array := true, num_handhake_headers := 1 }

/-- Same required options, but with none of the frame callbacks set. -/
def optsNoFrames : ConnectOptions :=
  { optsAllFrames with
    on_incoming_frame_begin := false, on_incoming_frame_payload := false,
    on_incoming_frame_complete := false }

/-- Same required options, but with only the frame-begin callback set
(a partially specified frame-callback group). -/
def optsOnlyBegin : ConnectOptions :=
  { optsAllFrames with
    on_incoming_frame_payload := false, on_incoming_frame_complete := false }

/-- C1: the code inverts the frame-callback validation.  With all required
options present and one handshake header: the all-set and none-set
configurations (not partially specified) are rejected with
InvalidArgument, while the partially specified only-begin configuration
passes validation.  The claim states the opposite, matching the source's
own log message; the source's condition is inverted and tests
on_incoming_frame_begin twice in place of on_incoming_frame_complete. -/
theorem connect_rejects_uniform_frame_callbacks :
    aws_websocket_client_connect_validate optsAllFrames = some AWS_ERROR_INVALID_ARGUMENT ∧
    frameCallbacksPartiallySpecified optsAllFrames = false ∧
    aws_websocket_client_connect_validate optsNoFrames = some AWS_ERROR_INVALID_ARGUMENT ∧
    frameCallbacksPartiallySpecified optsNoFrames = false ∧
    aws_websocket_client_connect_validate optsOnlyBegin = none ∧
    frameCallbacksPartiallySpecified optsOnlyBegin = true := by
  decide

/-- tolower on an ASCII byte, as used by aws_byte_cursor_eq_ignore_case. -/
def asciiLower (b : Nat) : Nat := if 65 ≤ b ∧ b ≤ 90 then b + 32 else b

/-- aws_byte_cursor_eq_ignore_case on byte strings. -/
def cursorEqIgnoreCase (a b : List Nat) : Bool :=
  a.map asciiLower == b.map asciiLower

/-- The bytes of the string "http". -/
def httpBytes : List Nat := [104, 116, 116, 112]

/-- The bytes of the string "https". -/
def httpsBytes : List Nat := [104, 116, 116, 112, 115]

/-- The bytes of the string "ws". -/
def wsBytes : List Nat := [119, 115]

/-- The bytes of the string "wss". -/
def wssBytes : List Nat := [119, 115, 115]

/-- The static scheme/port table s_scheme_ports
(websocket_bootstrap.c lines 33-38). -/
def s_scheme_ports : List (List Nat × Nat) :=
  [(httpBytes, 80), (httpsBytes, 443), (wsBytes, 80), (wssBytes, 443)]

/-- The scheme-table loop of aws_websocket_client_connect (lines 217-223):
first case-insensitive match wins; 0 when no entry matches. -/
def lookupSchemePort (scheme : List Nat) : Nat :=
  match s_scheme_ports.find? (fun sp => cursorEqIgnoreCase scheme sp.1) with
  | some sp => sp.2
  | none => 0

/-- Port inference of aws_websocket_client_connect (lines 214-228):
the URI's explicit non-zero port wins; else the scheme table; else 443
when TLS options are supplied and 80 otherwise. -/
def inferPort (uriPort : Nat) (scheme : List Nat) (tlsPresent : Bool) : Nat :=
  if uriPort ≠ 0 then uriPort
  else
    let port := lookupSchemePort scheme
    if port = 0 then (if tlsPresent then 443 else 80) else port

/-- The spec's scheme-to-default-port table, written from the spec's words:
explicit port always wins; http/ws give 80, https/wss give 443 (matched
case-insensitively); otherwise 443 when TLS is supplied, else 80. -/
def specPort (uriPort : Nat) (scheme : List Nat) (tlsPresent : Bool) : Nat :=
  if uriPort ≠ 0 then uriPort
  else if cursorEqIgnoreCase scheme httpBytes || cursorEqIgnoreCase scheme wsBytes then 80
  else if cursorEqIgnoreCase scheme httpsBytes || cursorEqIgnoreCase scheme wssBytes then 443
  else if tlsPresent then 443 else 80

theorem cursorEq_unique (s a b : List Nat)
    (ha : cursorEqIgnoreCase s a = true) (hb : cursorEqIgnoreCase s b = true) :
    a.map asciiLower = b.map asciiLower := by
  simp only [cursorEqIgnoreCase, beq_iff_eq] at ha hb
  rw [← ha, ← hb]

/-- C6: the port inferred by the code agrees with the spec's table on
every input: explicit non-zero URI port wins; else http/ws give 80 and
https/wss give 443 case-insensitively; else the TLS-based default. -/
theorem infer_port_matches_spec_table (uriPort : Nat) (scheme : List Nat) (tlsPresent : Bool) :
    inferPort uriPort scheme tlsPresent = specPort uriPort scheme tlsPresent := by
  unfold inferPort specPort lookupSchemePort s_scheme_ports
  by_cases hp : uriPort ≠ 0
  · simp [hp]
  · simp only [hp, if_false]
    by_cases h1 : cursorEqIgnoreCase scheme httpBytes = true
    · simp [List.find?, h1]
    · by_cases h2 : cursorEqIgnoreCase scheme httpsBytes = true
      · have hws : cursorEqIgnoreCase scheme wsBytes = false := by
          by_contra hc
          have hc' : cursorEqIgnoreCase scheme wsBytes = true := by
            revert hc; cases cursorEqIgnoreCase scheme wsBytes <;> simp
          exact absurd (cursorEq_unique scheme wsBytes httpsBytes hc' h2) (by decide)
        simp [List.find?, h1, h2, hws]
      · by_cases h3 : cursorEqIgnoreCase scheme wsBytes = true
        · simp [List.find?, h1, h2, h3]
        · by_cases h4 : cursorEqIgnoreCase scheme wssBytes = true
          · simp [List.find?, h1, h2, h3, h4]
          · simp [List.find?, h1, h2, h3, h4]

/-- A fixed-capacity aws_byte_buf: written bytes plus capacity.  The
request storage never grows; a write either fits or fails. -/
structure FixedBuf where
  data : List Nat
  capacity : Nat
deriving DecidableEq

/-- aws_byte_buf_write_from_whole_cursor: append the cursor's bytes when
they fit in the remaining capacity and report true, else leave the buffer
unchanged and report false. -/
def aws_byte_buf_write_from_whole_cursor (b : FixedBuf) (c : List Nat) : Bool × FixedBuf :=
  if b.data.length + c.length ≤ b.capacity
  then (true, { b with data := b.data ++ c })
  else (false, b)

/-- An offset+length view of bytes stored in the request buffer (the
request buffer is never reallocated, so offsets fully describe the
source's base+offset pointers there). -/
structure OffRec where
  off : Nat
  len : Nat
deriving DecidableEq

/-- One iteration of the header deep-copy loop of
aws_websocket_client_connect (lines 166-177): record where the name will
land, write the name, record where the value will land, write the value,
and accumulate write_success with the and of both writes. -/
def copyHeadersStep (acc : Bool × FixedBuf × List (OffRec × OffRec))
    (h : List Nat × List Nat) : Bool × FixedBuf × List (OffRec × OffRec) :=
  let nrec : OffRec := ⟨acc.2.1.data.length, h.1.length⟩
  let w1 := aws_byte_buf_write_from_whole_cursor acc.2.1 h.1
  let vrec : OffRec := ⟨w1.2.data.length, h.2.length⟩
  let w2 := aws_byte_buf_write_from_whole_cursor w1.2 h.2
  (acc.1 && w1.1 && w2.1, w2.2, acc.2.2 ++ [(nrec, vrec)])

/-- Total byte length of a header list: sum over headers of name length
plus value length. -/
def requestHeadersByteLength (headers : List (List Nat × List Nat)) : Nat :=
  (headers.map (fun h => h.1.length + h.2.length)).sum

/-- The request deep-copy phase of aws_websocket_client_connect
(lines 142-179): size the storage as path length plus all header name and
value lengths, write the path, then loop over the headers. -/
def copyRequest (path : List Nat) (headers : List (List Nat × List Nat)) :
    Bool × FixedBuf × List (OffRec × OffRec) :=
  let size := headers.foldl (fun acc h => acc + h.1.length + h.2.length) path.length
  let buf : FixedBuf := ⟨[], size⟩
  let w0 := aws_byte_buf_write_from_whole_cursor buf path
  headers.foldl copyHeadersStep (w0.1, w0.2, [])

theorem foldl_size_eq (headers : List (List Nat × List Nat)) (init : Nat) :
    headers.foldl (fun acc h => acc + h.1.length + h.2.length) init
      = init + requestHeadersByteLength headers := by
  induction headers generalizing init with
  | nil => simp [requestHeadersByteLength]
  | cons h t ih =>
    simp only [List.foldl_cons, requestHeadersByteLength, List.map_cons, List.sum_cons]
    rw [ih]
    simp only [requestHeadersByteLength]
    omega

theorem copyHeadersStep_fits (ok : Bool) (buf : FixedBuf)
    (recs : List (OffRec × OffRec)) (h : List Nat × List Nat)
    (hfit : buf.data.length + h.1.length + h.2.length ≤ buf.capacity) :
    copyHeadersStep (ok, buf, recs) h
      = (ok, ⟨buf.data ++ h.1 ++ h.2, buf.capacity⟩,
         recs ++ [(⟨buf.data.length, h.1.length⟩,
                   ⟨buf.data.length + h.1.length, h.2.length⟩)]) := by
  simp only [copyHeadersStep, aws_byte_buf_write_from_whole_cursor]
  rw [if_pos (by omega)]
  simp only [List.length_append]
  rw [if_pos (by omega)]
  simp [List.append_assoc]

theorem copyHeadersLoop_ok (headers : List (List Nat × List Nat))
    (ok : Bool) (buf : FixedBuf) (recs : List (OffRec × OffRec))
    (hcap : buf.data.length + requestHeadersByteLength headers ≤ buf.capacity) :
    (headers.foldl copyHeadersStep (ok, buf, recs)).1 = ok ∧
    (headers.foldl copyHeadersStep (ok, buf, recs)).2.1.capacity = buf.capacity ∧
    (headers.foldl copyHeadersStep (ok, buf, recs)).2.1.data.length
      = buf.data.length + requestHeadersByteLength headers := by
  induction headers generalizing ok buf recs with
  | nil => simp [requestHeadersByteLength]
  | cons h t ih =>
    have hR : requestHeadersByteLength (h :: t)
        = h.1.length + h.2.length + requestHeadersByteLength t := by
      simp only [requestHeadersByteLength, List.map_cons, List.sum_cons]
    rw [hR] at hcap
    have hfit : buf.data.length + h.1.length + h.2.length ≤ buf.capacity := by omega
    rw [List.foldl_cons, copyHeadersStep_fits ok buf recs h hfit]
    have hcap' : (buf.data ++ h.1 ++ h.2).length + requestHeadersByteLength t
        ≤ buf.capacity := by
      simp only [List.length_append]
      omega
    have := ih ok ⟨buf.data ++ h.1 ++ h.2, buf.capacity⟩
      (recs ++ [(⟨buf.data.length, h.1.length⟩,
                 ⟨buf.data.length + h.1.length, h.2.length⟩)]) hcap'
    rcases this with ⟨h1, h2, h3⟩
    refine ⟨h1, h2, ?_⟩
    rw [h3]
    simp only [List.length_append]
    omega

/-- C9: the request arena's capacity equals exactly the path length plus
the sum of all handshake header name and value lengths, every write in
the copy sequence succeeds (write_success stays true), and the bytes
written fill the capacity exactly, never exceeding it. -/
theorem request_arena_exact_capacity_writes_succeed (path : List Nat)
    (headers : List (List Nat × List Nat)) :
    (copyRequest path headers).1 = true ∧
    (copyRequest path headers).2.1.capacity
      = path.length + requestHeadersByteLength headers ∧
    (copyRequest path headers).2.1.data.length
      = (copyRequest path headers).2.1.capacity := by
  have hsize := foldl_size_eq headers path.length
  unfold copyRequest
  rw [hsize]
  simp only [aws_byte_buf_write_from_whole_cursor, List.length_nil, List.nil_append]
  rw [if_pos (by omega)]
  have hloop := copyHeadersLoop_ok headers true
    ⟨path, path.length + requestHeadersByteLength headers⟩ [] (by simp)
  rcases hloop with ⟨h1, h2, h3⟩
  refine ⟨h1, by rw [h2], ?_⟩
  rw [h3, h2]

/-- The growable response buffer: an allocation identity, the written
bytes, and the current capacity.  A reallocation produces a fresh
allocation identity (the old allocation is released). -/
structure DynBuf where
  allocId : Nat
  data : List Nat
  capacity : Nat
deriving DecidableEq

/-- The capacity-doubling loop of aws_byte_buf_append_dynamic, with
explicit fuel (the C loop doubles current capacity until it reaches the
required size; fuel bounded by the required size suffices whenever the
starting capacity is positive). -/
def growCapLoop : Nat → Nat → Nat → Nat
  | 0, cap, _ => cap
  | fuel + 1, cap, needed => if needed ≤ cap then cap else growCapLoop fuel (2 * cap) needed

/-- aws_byte_buf_append_dynamic: append in place when the bytes fit in
the current capacity; otherwise acquire a fresh larger allocation, copy
the existing bytes forward, release the old allocation (hence the new
allocation identity), and append. -/
def aws_byte_buf_append_dynamic (b : DynBuf) (c : List Nat) : DynBuf :=
  if b.data.length + c.length ≤ b.capacity then { b with data := b.data ++ c }
  else { allocId := b.allocId + 1, data := b.data ++ c,
         capacity := growCapLoop (b.data.length + c.length) b.capacity
           (b.data.length + c.length) }

/-- A stored aws_byte_cursor into the response storage, as the source
builds it: a raw pointer (modelled as the identity of the allocation it
points into plus the byte offset) and a length. -/
structure CurRec where
  allocId : Nat
  off : Nat
  len : Nat
deriving DecidableEq

/-- Read the bytes a stored cursor denotes, against the current response
storage.  A cursor whose pointer refers to a released allocation (its
allocation identity differs from the live buffer's) no longer resolves. -/
def resolveRec (b : DynBuf) (r : CurRec) : Option (List Nat) :=
  if r.allocId = b.allocId ∧ r.off + r.len ≤ b.data.length
  then some ((b.data.drop r.off).take r.len)
  else none

/-- Response-capture state: the growable storage plus the captured
(name, value) cursor records, in arrival order. -/
structure RespState where
  storage : DynBuf
  headers : List (CurRec × CurRec)
deriving DecidableEq

/-- s_ws_bootstrap_on_handshake_response_headers (lines 422-466): for each
header in the batch, take the name's destination pointer before appending
the name, append the name dynamically, take the value's destination
pointer before appending the value, append the value, and push the record.
The destination pointers are taken from the buffer as it is at that
moment; a later growth does not revisit them. -/
def onRespHeaders (st : RespState) (batch : List (List Nat × List Nat)) : RespState :=
  batch.foldl (fun st h =>
    let nrec : CurRec := ⟨st.storage.allocId, st.storage.data.length, h.1.length⟩
    let s1 := aws_byte_buf_append_dynamic st.storage h.1
    let vrec : CurRec := ⟨s1.allocId, s1.data.length, h.2.length⟩
    let s2 := aws_byte_buf_append_dynamic s1 h.2
    ⟨s2, st.headers ++ [(nrec, vrec)]⟩) st

/-- The response storage as aws_websocket_client_connect initializes it
(lines 181-200): empty, one allocation, capacity
(num_request_headers + 10) * 64. -/
def initRespStorage (numRequestHeaders : Nat) : DynBuf :=
  ⟨0, [], (numRequestHeaders + 10) * 64⟩

/-- The bytes of the string "Upgrade". -/
def upgradeBytes : List Nat := [85, 112, 103, 114, 97, 100, 101]

set_option maxRecDepth 100000 in
/-- C2: with one request header the response storage starts with capacity
704; a single response-header batch containing one header whose name is
"Upgrade" and whose value is 800 bytes forces the storage to reallocate
while appending the value, so the name and value records captured before
the growth point into the released allocation (identity 0, not the live
identity 1) and no longer resolve against the response storage — the
captured list does not round-trip byte-exactly across reallocation. -/
theorem response_header_record_dangles_after_growth :
    (onRespHeaders ⟨initRespStorage 1, []⟩
        [(upgradeBytes, List.replicate 800 97)]).storage.allocId = 1 ∧
    (onRespHeaders ⟨initRespStorage 1, []⟩
        [(upgradeBytes, List.replicate 800 97)]).headers
      = [(⟨0, 0, 7⟩, ⟨0, 7, 800⟩)] ∧
    resolveRec (onRespHeaders ⟨initRespStorage 1, []⟩
        [(upgradeBytes, List.replicate 800 97)]).storage ⟨0, 0, 7⟩ = none ∧
    ¬ resolveRec (onRespHeaders ⟨initRespStorage 1, []⟩
        [(upgradeBytes, List.replicate 800 97)]).storage ⟨0, 0, 7⟩
      = some upgradeBytes := by
  decide

/-- A user-visible callback invocation emitted by the bootstrap: either
the setup callback (websocket present or not, error code, response
status, captured header records) or the shutdown callback (error code). -/
inductive Call where
  | setup (wsPresent : Bool) (err : Nat) (status : Int) (hdrs : List (CurRec × CurRec))
  | shutdown (err : Nat)
deriving DecidableEq

/-- Whether a callback invocation is a setup-callback invocation. -/
def isSetupCall : Call → Bool
  | .setup _ _ _ _ => true
  | .shutdown _ => false

/-- Whether a callback invocation is a shutdown-callback invocation. -/
def isShutdownCall : Call → Bool
  | .setup _ _ _ _ => false
  | .shutdown _ => true

/-- Whether a callback invocation is a successful setup report: websocket
handle present and zero error. -/
def isSuccessSetup : Call → Bool
  | .setup ws e _ _ => ws && e == 0
  | .shutdown _ => false

/-- The mutable state of one aws_websocket_client_bootstrap instance.
websocket_setup_callback is modelled by the Bool setupCb (the source
nulls the pointer once the callback has reported success); sticky is
setup_error_code; destroys, releases and closeRequests count the calls
to s_ws_bootstrap_destroy, aws_http_connection_release and
aws_http_connection_close made on behalf of this instance. -/
structure BState where
  setupCb : Bool
  shutdownCb : Bool
  sticky : Nat
  status : Int
  websocket : Bool
  resp : RespState
  destroys : Nat
  releases : Nat
  closeRequests : Nat
deriving DecidableEq

/-- s_ws_bootstrap_cancel_setup_due_to_err (lines 279-299): when no sticky
error is recorded yet, record this error and ask the HTTP connection to
close; otherwise do nothing.  The function invokes no user callback, so
the emitted call list is empty in both branches. -/
def cancelSetup (s : BState) (e : Nat) : BState × List Call :=
  if s.sticky = 0
  then ({ s with sticky := e, closeRequests := s.closeRequests + 1 }, [])
  else (s, [])

/-- The asynchronous events delivered to the bootstrap by its
collaborators.  httpSetup carries the HTTP setup error, whether creating
the handshake stream succeeds, and the last-error value reported when it
does not.  complete carries the stream completion error, the response
status the stream reports, whether aws_websocket_handler_new succeeds,
and the last-error value reported when it does not. -/
inductive Event where
  | httpSetup (err : Nat) (streamOk : Bool) (streamErr : Nat)
  | headersBatch (batch : List (List Nat × List Nat))
  | complete (err : Nat) (status : Int) (wsOk : Bool) (lastErr : Nat)
  | httpShutdown (err : Nat)

/-- One callback dispatch of the bootstrap, translated handler by handler
from websocket_bootstrap.c:
- httpSetup (s_ws_bootstrap_on_http_setup, lines 302-360): on error,
  invoke the setup callback at once with a NULL websocket, the error,
  status unknown and no headers, then destroy the bootstrap; on success
  send the handshake request, cancelling on stream-creation failure.
- headersBatch (s_ws_bootstrap_on_handshake_response_headers,
  lines 422-466): deep-copy the batch into the response storage.
- complete (s_ws_bootstrap_on_handshake_complete, lines 468-553): on
  error cancel with it; else store the reported status; if it is not 101
  raise UpgradeFailure and cancel; else install the websocket handler,
  cancelling on failure; on success invoke the setup callback with the
  websocket, zero error, the status and the captured headers, then null
  the setup-callback slot.
- httpShutdown (s_ws_bootstrap_on_http_shutdown, lines 364-420): if the
  setup callback has not fired, invoke it with a non-zero error chosen as
  the shutdown error, else the sticky error, else AWS_ERROR_UNKNOWN;
  otherwise invoke the shutdown callback when one is configured; in every
  branch release the connection and destroy the bootstrap. -/
def step (s : BState) (ev : Event) : BState × List Call :=
  match ev with
  | .httpSetup err streamOk streamErr =>
    if err ≠ 0 then
      ({ s with destroys := s.destroys + 1 },
       [Call.setup false err AWS_HTTP_STATUS_UNKNOWN []])
    else if streamOk then (s, [])
    else cancelSetup s streamErr
  | .headersBatch batch =>
    ({ s with resp := onRespHeaders s.resp batch }, [])
  | .complete err status wsOk lastErr =>
    if err ≠ 0 then cancelSetup s err
    else
      let s1 := { s with status := status }
      if status ≠ AWS_HTTP_STATUS_101_SWITCHING_PROTOCOLS then
        cancelSetup s1 AWS_ERROR_HTTP_WEBSOCKET_UPGRADE_FAILURE
      else if wsOk then
        ({ s1 with websocket := true, setupCb := false },
         [Call.setup true 0 status s1.resp.headers])
      else cancelSetup s1 lastErr
  | .httpShutdown err =>
    if s.setupCb then
      ({ s with destroys := s.destroys + 1, releases := s.releases + 1 },
       [Call.setup false
         (if err ≠ 0 then err else if s.sticky ≠ 0 then s.sticky else AWS_ERROR_UNKNOWN)
         s.status s.resp.headers])
    else if s.shutdownCb then
      ({ s with destroys := s.destroys + 1, releases := s.releases + 1 },
       [Call.shutdown err])
    else
      ({ s with destroys := s.destroys + 1, releases := s.releases + 1 }, [])

/-- Run the bootstrap over a sequence of events, collecting the emitted
callback invocations in order. -/
def run (s : BState) : List Event → BState × List Call
  | [] => (s, [])
  | ev :: rest =>
    ((run (step s ev).1 rest).1, (step s ev).2 ++ (run (step s ev).1 rest).2)

/-- The bootstrap state as aws_websocket_client_connect builds it
(lines 126-200) for a validated configuration: setup callback present
(required), shutdown callback as configured, no sticky error, status
unknown, no websocket, empty response capture with the heuristic
storage capacity. -/
def initState (shutdownCb : Bool) (numRequestHeaders : Nat) : BState :=
  { setupCb := true, shutdownCb := shutdownCb, sticky := 0,
    status := AWS_HTTP_STATUS_UNKNOWN, websocket := false,
    resp := ⟨initRespStorage numRequestHeaders, []⟩,
    destroys := 0, releases := 0, closeRequests := 0 }

/-- Whether an event may occur between connection setup and connection
shutdown (header batches and stream completion). -/
def isMidEvent : Event → Bool
  | .headersBatch _ => true
  | .complete _ _ _ _ => true
  | .httpSetup _ _ _ => false
  | .httpShutdown _ => false

/-- Whether an event is a stream-completion event. -/
def isCompleteEvent : Event → Bool
  | .complete _ _ _ _ => true
  | _ => false

/-- The event sequences the collaborators can deliver to one bootstrap
instance, per their contracts: the HTTP setup callback fires first and
exactly once; when it reports an error no further callback fires (the
bootstrap is destroyed on the spot); when it reports success, header
batches and at most one stream completion may follow, and the HTTP
shutdown callback fires exactly once, last. -/
def ValidTrace (tr : List Event) : Prop :=
  (∃ e sOk sErr, e ≠ 0 ∧ tr = [Event.httpSetup e sOk sErr]) ∨
  (∃ sOk sErr mid err,
    tr = Event.httpSetup 0 sOk sErr :: (mid ++ [Event.httpShutdown err]) ∧
    (∀ m ∈ mid, isMidEvent m = true) ∧
    mid.countP isCompleteEvent ≤ 1)

theorem cancelSetup_preserves (s : BState) (e : Nat) :
    (cancelSetup s e).1.setupCb = s.setupCb ∧
    (cancelSetup s e).1.shutdownCb = s.shutdownCb ∧
    (cancelSetup s e).2 = [] := by
  unfold cancelSetup
  split <;> simp

theorem run_cons (s : BState) (ev : Event) (rest : List Event) :
    run s (ev :: rest)
      = ((run (step s ev).1 rest).1, (step s ev).2 ++ (run (step s ev).1 rest).2) := rfl

/-- C8: when the setup callback has not yet fired, the HTTP-shutdown
handler invokes it with exactly one failure report whose error code is
the shutdown error if non-zero, else the sticky cancellation error if
non-zero, else AWS_ERROR_UNKNOWN — always non-zero — together with the
response status and header records captured so far. -/
theorem shutdown_setup_error_priority (s : BState) (err : Nat)
    (hcb : s.setupCb = true) :
    (step s (.httpShutdown err)).2
      = [Call.setup false
          (if err ≠ 0 then err else if s.sticky ≠ 0 then s.sticky else AWS_ERROR_UNKNOWN)
          s.status s.resp.headers] ∧
    (if err ≠ 0 then err else if s.sticky ≠ 0 then s.sticky else AWS_ERROR_UNKNOWN) ≠ 0 := by
  constructor
  · simp [step, hcb]
  · by_cases h1 : err = 0
    · by_cases h2 : s.sticky = 0
      · simp [h1, h2, AWS_ERROR_UNKNOWN]
      · simp [h1, h2]
    · simp [h1]

theorem shutdown_setup_error_priority_witness :
    (step (initState true 1) (.httpShutdown 0)).2
      = [Call.setup false
          (if (0 : Nat) ≠ 0 then 0
           else if (initState true 1).sticky ≠ 0 then (initState true 1).sticky
           else AWS_ERROR_UNKNOWN)
          (initState true 1).status (initState true 1).resp.headers] ∧
    (if (0 : Nat) ≠ 0 then 0
     else if (initState true 1).sticky ≠ 0 then (initState true 1).sticky
     else AWS_ERROR_UNKNOWN) ≠ 0 :=
  shutdown_setup_error_priority (initState true 1) 0 rfl

/-- C10: every HTTP-shutdown dispatch releases the HTTP connection once
and destroys the bootstrap once, whichever user callback fires; and when
the setup callback already fired but no shutdown callback was configured,
no user callback is invoked at all. -/
theorem http_shutdown_releases_and_destroys_once (s : BState) (err : Nat) :
    (step s (.httpShutdown err)).1.destroys = s.destroys + 1 ∧
    (step s (.httpShutdown err)).1.releases = s.releases + 1 ∧
    (s.setupCb = false → s.shutdownCb = false → (step s (.httpShutdown err)).2 = []) := by
  by_cases h1 : s.setupCb <;> by_cases h2 : s.shutdownCb <;> simp [step, h1, h2]

/-- The bootstrap state after a successful handshake on an instance whose
caller configured no shutdown callback. -/
def establishedNoShutdownCb : BState :=
  { initState false 1 with setupCb := false, websocket := true }

theorem http_shutdown_releases_and_destroys_once_witness :
    (step establishedNoShutdownCb (.httpShutdown 0)).1.destroys
      = establishedNoShutdownCb.destroys + 1 ∧
    (step establishedNoShutdownCb (.httpShutdown 0)).1.releases
      = establishedNoShutdownCb.releases + 1 ∧
    (step establishedNoShutdownCb (.httpShutdown 0)).2 = [] := by
  obtain ⟨h1, h2, h3⟩ := http_shutdown_releases_and_destroys_once establishedNoShutdownCb 0
  exact ⟨h1, h2, h3 rfl rfl⟩

/-- C5 amended: on a bootstrap with no sticky error yet, a cancel call
records its error, requests one connection close and invokes no user
callback; any later cancel call changes nothing; and the error surfaced
by the eventual shutdown is the first recorded error whenever the
connection's shutdown itself reports a zero error code (a non-zero
shutdown error code takes precedence over the sticky error). -/
theorem cancel_sticky_first_error_wins (s : BState) (e1 e2 : Nat)
    (hst : s.sticky = 0) (he1 : e1 ≠ 0) (hcb : s.setupCb = true) :
    (cancelSetup s e1).2 = [] ∧
    (cancelSetup s e1).1.sticky = e1 ∧
    (cancelSetup s e1).1.closeRequests = s.closeRequests + 1 ∧
    cancelSetup (cancelSetup s e1).1 e2 = ((cancelSetup s e1).1, []) ∧
    (step (cancelSetup s e1).1 (.httpShutdown 0)).2
      = [Call.setup false e1 s.status s.resp.headers] := by
  have h1 : cancelSetup s e1
      = ({ s with sticky := e1, closeRequests := s.closeRequests + 1 }, []) := by
    simp [cancelSetup, hst]
  rw [h1]
  refine ⟨rfl, rfl, rfl, ?_, ?_⟩
  · simp [cancelSetup, he1]
  · simp [step, hcb, he1]

theorem cancel_sticky_first_error_wins_witness :
    (cancelSetup (initState true 1) 5).2 = [] ∧
    (cancelSetup (initState true 1) 5).1.sticky = 5 ∧
    (cancelSetup (initState true 1) 5).1.closeRequests
      = (initState true 1).closeRequests + 1 ∧
    cancelSetup (cancelSetup (initState true 1) 5).1 9
      = ((cancelSetup (initState true 1) 5).1, []) ∧
    (step (cancelSetup (initState true 1) 5).1 (.httpShutdown 0)).2
      = [Call.setup false 5 (initState true 1).status (initState true 1).resp.headers] :=
  cancel_sticky_first_error_wins (initState true 1) 5 9 rfl (by decide) rfl

/-- C5 counterexample: a sticky error 5 is recorded first, yet when the
connection's shutdown reports error 7 the setup callback surfaces 7, not
the first recorded error 5 — the shutdown error takes precedence, so the
first error recorded is not always the error surfaced. -/
theorem cancel_first_error_not_always_surfaced :
    (cancelSetup (initState true 1) 5).1.sticky = 5 ∧
    (step (cancelSetup (initState true 1) 5).1 (.httpShutdown 7)).2
      = [Call.setup false 7 AWS_HTTP_STATUS_UNKNOWN []] ∧
    (7 : Nat) ≠ 5 := by
  decide

/-- C3: a handshake completion with zero error whose reported status is
not 101 stores the status, records UpgradeFailure as the sticky error,
requests the connection close, and invokes no callback from the
completion handler; the setup callback fires only from the later
HTTP-shutdown dispatch, with a non-zero error. -/
theorem non_101_upgrade_failure_defers_setup (s : BState) (status : Int)
    (wsOk : Bool) (lastErr serr : Nat)
    (hcb : s.setupCb = true) (hst : s.sticky = 0)
    (h101 : status ≠ AWS_HTTP_STATUS_101_SWITCHING_PROTOCOLS) :
    (step s (.complete 0 status wsOk lastErr)).2 = [] ∧
    (step s (.complete 0 status wsOk lastErr)).1.sticky
      = AWS_ERROR_HTTP_WEBSOCKET_UPGRADE_FAILURE ∧
    (step s (.complete 0 status wsOk lastErr)).1.closeRequests = s.closeRequests + 1 ∧
    ∃ e, e ≠ 0 ∧
      (step (step s (.complete 0 status wsOk lastErr)).1 (.httpShutdown serr)).2
        = [Call.setup false e status
            (step s (.complete 0 status wsOk lastErr)).1.resp.headers] := by
  refine ⟨?_, ?_, ?_, ?_⟩
  · simp [step, h101, cancelSetup, hst]
  · simp [step, h101, cancelSetup, hst]
  · simp [step, h101, cancelSetup, hst]
  · refine ⟨if serr ≠ 0 then serr else AWS_ERROR_HTTP_WEBSOCKET_UPGRADE_FAILURE, ?_, ?_⟩
    · by_cases hs : serr = 0 <;> simp [hs, AWS_ERROR_HTTP_WEBSOCKET_UPGRADE_FAILURE]
    · by_cases hs : serr = 0 <;>
        simp [step, h101, cancelSetup, hst, hcb, hs, AWS_ERROR_HTTP_WEBSOCKET_UPGRADE_FAILURE]

theorem non_101_upgrade_failure_defers_setup_witness :
    (step (initState true 1) (.complete 0 200 false 0)).2 = [] ∧
    (step (initState true 1) (.complete 0 200 false 0)).1.sticky
      = AWS_ERROR_HTTP_WEBSOCKET_UPGRADE_FAILURE ∧
    (step (initState true 1) (.complete 0 200 false 0)).1.closeRequests
      = (initState true 1).closeRequests + 1 ∧
    ∃ e, e ≠ 0 ∧
      (step (step (initState true 1) (.complete 0 200 false 0)).1 (.httpShutdown 0)).2
        = [Call.setup false e 200
            (step (initState true 1) (.complete 0 200 false 0)).1.resp.headers] :=
  non_101_upgrade_failure_defers_setup (initState true 1) 200 false 0 0 rfl rfl (by decide)

theorem run_append_eq (s : BState) (l1 l2 : List Event) :
    run s (l1 ++ l2)
      = ((run (run s l1).1 l2).1, (run s l1).2 ++ (run (run s l1).1 l2).2) := by
  induction l1 generalizing s with
  | nil => simp [run]
  | cons ev rest ih =>
    rw [List.cons_append, run_cons, ih, run_cons]
    simp [List.append_assoc]

theorem step_httpSetup_zero (s : BState) (sOk : Bool) (sErr : Nat) :
    (step s (.httpSetup 0 sOk sErr)).1.setupCb = s.setupCb ∧
    (step s (.httpSetup 0 sOk sErr)).1.shutdownCb = s.shutdownCb ∧
    (step s (.httpSetup 0 sOk sErr)).2 = [] := by
  cases sOk
  · simpa [step] using cancelSetup_preserves s sErr
  · simp [step]


theorem run_mid_no_complete : ∀ (mid : List Event) (s : BState),
    (∀ m ∈ mid, isMidEvent m = true) → mid.countP isCompleteEvent = 0 →
    (run s mid).1.setupCb = s.setupCb ∧
    (run s mid).1.shutdownCb = s.shutdownCb ∧
    (run s mid).2 = [] := by
  intro mid
  induction mid with
  | nil => intro s _ _; exact ⟨rfl, rfl, rfl⟩
  | cons m rest ih =>
    intro s h1 h2
    cases m with
    | httpSetup e so se =>
      have := h1 _ (List.mem_cons_self _ _)
      simp [isMidEvent] at this
    | httpShutdown e =>
      have := h1 _ (List.mem_cons_self _ _)
      simp [isMidEvent] at this
    | complete err status wsOk lastErr =>
      simp [List.countP_cons, isCompleteEvent] at h2
    | headersBatch b =>
      have hr1 : ∀ x ∈ rest, isMidEvent x = true :=
        fun x hx => h1 x (List.mem_cons_of_mem _ hx)
      have hr2 : rest.countP isCompleteEvent = 0 := by
        simpa [List.countP_cons, isCompleteEvent] using h2
      obtain ⟨a1, a2, a3⟩ := ih (step s (.headersBatch b)).1 hr1 hr2
      have e1 : (run s (Event.headersBatch b :: rest)).1
          = (run (step s (Event.headersBatch b)).1 rest).1 := by rw [run_cons]
      have e2 : (run s (Event.headersBatch b :: rest)).2
          = (step s (Event.headersBatch b)).2
            ++ (run (step s (Event.headersBatch b)).1 rest).2 := by rw [run_cons]
      refine ⟨?_, ?_, ?_⟩
      · rw [e1, a1]; rfl
      · rw [e1, a2]; rfl
      · rw [e2, a3]; rfl

/-- Case analysis on one mid-stream event: either it emits nothing and
preserves both callback slots (header batch, or completion entering the
cancellation path), or it is a successful completion, which emits exactly
the one successful setup call and clears the setup slot. -/
theorem step_mid_cases (s : BState) (m : Event) (hm : isMidEvent m = true) :
    ((step s m).1.setupCb = s.setupCb ∧ (step s m).1.shutdownCb = s.shutdownCb ∧
      (step s m).2 = []) ∨
    ((step s m).1.setupCb = false ∧ (step s m).1.shutdownCb = s.shutdownCb ∧
      isCompleteEvent m = true ∧
      ∃ st hd, (step s m).2 = [Call.setup true 0 st hd]) := by
  cases m with
  | httpSetup e so se => simp [isMidEvent] at hm
  | httpShutdown e => simp [isMidEvent] at hm
  | headersBatch b => exact Or.inl ⟨rfl, rfl, rfl⟩
  | complete err status wsOk lastErr =>
    by_cases he : err = 0
    · by_cases h101 : status = AWS_HTTP_STATUS_101_SWITCHING_PROTOCOLS
      · cases wsOk
        · have hstep : step s (.complete err status false lastErr)
              = cancelSetup { s with status := status } lastErr := by
            simp [step, he, h101]
          have hc := cancelSetup_preserves { s with status := status } lastErr
          rw [hstep]
          exact Or.inl ⟨hc.1, hc.2.1, hc.2.2⟩
        · have hstep : step s (.complete err status true lastErr)
              = ({ s with status := status, websocket := true, setupCb := false },
                 [Call.setup true 0 status s.resp.headers]) := by
            simp [step, he, h101]
          rw [hstep]
          exact Or.inr ⟨rfl, rfl, rfl, status, s.resp.headers, rfl⟩
      · have hstep : step s (.complete err status wsOk lastErr)
            = cancelSetup { s with status := status }
                AWS_ERROR_HTTP_WEBSOCKET_UPGRADE_FAILURE := by
          simp [step, he, h101]
        have hc := cancelSetup_preserves { s with status := status }
          AWS_ERROR_HTTP_WEBSOCKET_UPGRADE_FAILURE
        rw [hstep]
        exact Or.inl ⟨hc.1, hc.2.1, hc.2.2⟩
    · have hstep : step s (.complete err status wsOk lastErr) = cancelSetup s err := by
        simp [step, he]
      have hc := cancelSetup_preserves s err
      rw [hstep]
      exact Or.inl ⟨hc.1, hc.2.1, hc.2.2⟩

theorem run_mid_events : ∀ (mid : List Event) (s : BState),
    (∀ m ∈ mid, isMidEvent m = true) → mid.countP isCompleteEvent ≤ 1 →
    s.setupCb = true →
    (run s mid).1.shutdownCb = s.shutdownCb ∧
    (((run s mid).1.setupCb = true ∧ (run s mid).2 = []) ∨
     ((run s mid).1.setupCb = false ∧
       ∃ st hd, (run s mid).2 = [Call.setup true 0 st hd])) := by
  intro mid
  induction mid with
  | nil => intro s _ _ hs; exact ⟨rfl, Or.inl ⟨hs, rfl⟩⟩
  | cons m rest ih =>
    intro s h1 h2 hs
    have hm : isMidEvent m = true := h1 _ (List.mem_cons_self _ _)
    have hr1 : ∀ x ∈ rest, isMidEvent x = true :=
      fun x hx => h1 x (List.mem_cons_of_mem _ hx)
    have hr2le : rest.countP isCompleteEvent ≤ 1 := by
      rw [List.countP_cons] at h2
      omega
    have e1 : (run s (m :: rest)).1 = (run (step s m).1 rest).1 := by rw [run_cons]
    have e2 : (run s (m :: rest)).2
        = (step s m).2 ++ (run (step s m).1 rest).2 := by rw [run_cons]
    rcases step_mid_cases s m hm with ⟨p1, p2, p3⟩ | ⟨q1, q2, hcm, st, hd, hq⟩
    · obtain ⟨a1, a2⟩ := ih (step s m).1 hr1 hr2le (by rw [p1]; exact hs)
      refine ⟨by rw [e1, a1, p2], ?_⟩
      rcases a2 with ⟨b1, b2⟩ | ⟨b1, st, hd, b2⟩
      · refine Or.inl ⟨by rw [e1]; exact b1, ?_⟩
        rw [e2, p3, b2]
        rfl
      · refine Or.inr ⟨by rw [e1]; exact b1, st, hd, ?_⟩
        rw [e2, p3, b2]
        rfl
    · have hr2 : rest.countP isCompleteEvent = 0 := by
        rw [List.countP_cons, hcm, if_pos rfl] at h2
        omega
      obtain ⟨a1, a2, a3⟩ := run_mid_no_complete rest (step s m).1 hr1 hr2
      refine ⟨by rw [e1, a2, q2], Or.inr ⟨by rw [e1, a1, q1], st, hd, ?_⟩⟩
      rw [e2, hq, a3]
      rfl

theorem step_shutdown_calls (s : BState) (err : Nat) :
    (step s (.httpShutdown err)).2
      = if s.setupCb then
          [Call.setup false
            (if err ≠ 0 then err else if s.sticky ≠ 0 then s.sticky else AWS_ERROR_UNKNOWN)
            s.status s.resp.headers]
        else if s.shutdownCb then [Call.shutdown err] else [] := by
  by_cases h1 : s.setupCb <;> by_cases h2 : s.shutdownCb <;> simp [step, h1, h2]

/-- C4: over every valid interleaving of the collaborators' callbacks,
the setup callback is invoked exactly once in the instance's lifetime,
and the shutdown callback is invoked iff the setup callback previously
reported success (websocket handle present, zero error) and a shutdown
callback was configured at creation. -/
theorem setup_once_shutdown_iff_success (cfg : Bool) (nReq : Nat) (tr : List Event)
    (hv : ValidTrace tr) :
    ((run (initState cfg nReq) tr).2.countP isSetupCall = 1) ∧
    ((∃ c ∈ (run (initState cfg nReq) tr).2, isShutdownCall c = true) ↔
      ((∃ c ∈ (run (initState cfg nReq) tr).2, isSuccessSetup c = true) ∧ cfg = true)) := by
  rcases hv with ⟨e, sOk, sErr, he, rfl⟩ | ⟨sOk, sErr, mid, err, rfl, hmid, hcnt⟩
  · have hcalls : (run (initState cfg nReq) [Event.httpSetup e sOk sErr]).2
        = [Call.setup false e AWS_HTTP_STATUS_UNKNOWN []] := by
      have c1 : (run (initState cfg nReq) [Event.httpSetup e sOk sErr]).2
          = (step (initState cfg nReq) (Event.httpSetup e sOk sErr)).2 ++ [] := rfl
      rw [c1]
      simp [step, he]
    rw [hcalls]
    refine ⟨by simp [List.countP_cons, isSetupCall], ?_⟩
    simp [isShutdownCall, isSuccessSetup]
  · have h0 := step_httpSetup_zero (initState cfg nReq) sOk sErr
    have hcb1 : (step (initState cfg nReq) (Event.httpSetup 0 sOk sErr)).1.setupCb = true := by
      rw [h0.1]
      rfl
    have hm := run_mid_events mid
      (step (initState cfg nReq) (Event.httpSetup 0 sOk sErr)).1 hmid hcnt hcb1
    have hshut2 : (run (step (initState cfg nReq) (Event.httpSetup 0 sOk sErr)).1
        mid).1.shutdownCb = cfg := by
      rw [hm.1, h0.2.1]
      rfl
    have hcalls : (run (initState cfg nReq)
          (Event.httpSetup 0 sOk sErr :: (mid ++ [Event.httpShutdown err]))).2
        = (run (step (initState cfg nReq) (Event.httpSetup 0 sOk sErr)).1 mid).2
          ++ (step (run (step (initState cfg nReq) (Event.httpSetup 0 sOk sErr)).1 mid).1
                (Event.httpShutdown err)).2 := by
      rw [run_cons, run_append_eq]
      simp only [Prod.fst, Prod.snd, h0.2.2, List.nil_append]
      rw [run_cons]
      simp [run]
    rcases hm.2 with ⟨hA1, hA2⟩ | ⟨hB1, st, hd, hB2⟩
    · rw [hcalls, hA2, step_shutdown_calls, hA1]
      refine ⟨by simp [List.countP_cons, isSetupCall], ?_⟩
      simp [isShutdownCall, isSuccessSetup]
    · rw [hcalls, hB2, step_shutdown_calls, hB1, hshut2]
      cases cfg
      · refine ⟨by simp [List.countP_cons, isSetupCall], ?_⟩
        simp [isShutdownCall, isSuccessSetup]
      · refine ⟨by simp [List.countP_cons, isSetupCall, isShutdownCall], ?_⟩
        simp [isShutdownCall, isSuccessSetup, isSetupCall]

/-- A demonstration trace: the HTTP connection establishes, one empty
header batch arrives, the handshake completes with status 101 and the
handler installs, then the connection eventually shuts down cleanly. -/
def demoTrace : List Event :=
  [Event.httpSetup 0 true 0, Event.headersBatch [], Event.complete 0 101 true 0,
   Event.httpShutdown 0]

theorem setup_once_shutdown_iff_success_witness :
    ((run (initState true 1) demoTrace).2.countP isSetupCall = 1) ∧
    ((∃ c ∈ (run (initState true 1) demoTrace).2, isShutdownCall c = true) ↔
      ((∃ c ∈ (run (initState true 1) demoTrace).2, isSuccessSetup c = true) ∧ true = true)) :=
  setup_once_shutdown_iff_success true 1 demoTrace
    (Or.inr ⟨true, 0, [Event.headersBatch [], Event.complete 0 101 true 0], 0,
      rfl, by decide, by decide⟩)

/-- C7: when the HTTP connection setup reports a non-zero error (no
connection exists), the setup callback fires immediately from that
handler with no websocket, that error, unknown status and an empty
header list, the bootstrap is destroyed, and no shutdown callback is
ever invoked on any valid continuation of the trace (there is none: the
instance is gone). -/
theorem http_setup_failure_immediate_setup_callback (cfg : Bool) (nReq : Nat)
    (tr : List Event) (e : Nat) (sOk : Bool) (sErr : Nat)
    (he : e ≠ 0) (hv : ValidTrace tr)
    (hhd : tr.head? = some (Event.httpSetup e sOk sErr)) :
    (run (initState cfg nReq) tr).2 = [Call.setup false e AWS_HTTP_STATUS_UNKNOWN []] ∧
    (run (initState cfg nReq) tr).1.destroys = 1 ∧
    (∀ c ∈ (run (initState cfg nReq) tr).2, isShutdownCall c = false) := by
  rcases hv with ⟨f, sOk1, sErr1, hf, rfl⟩ | ⟨sOk1, sErr1, mid, err, rfl, hmid, hcnt⟩
  · simp only [List.head?_cons, Option.some.injEq, Event.httpSetup.injEq] at hhd
    obtain ⟨rfl, rfl, rfl⟩ := hhd
    have hcalls : (run (initState cfg nReq) [Event.httpSetup f sOk1 sErr1]).2
        = (step (initState cfg nReq) (Event.httpSetup f sOk1 sErr1)).2 ++ [] := rfl
    have hst : (run (initState cfg nReq) [Event.httpSetup f sOk1 sErr1]).1
        = (step (initState cfg nReq) (Event.httpSetup f sOk1 sErr1)).1 := rfl
    refine ⟨?_, ?_, ?_⟩
    · rw [hcalls]
      simp [step, hf]
    · rw [hst]
      simp [step, hf, initState]
    · rw [hcalls]
      simp [step, hf, isShutdownCall]
  · simp only [List.head?_cons, Option.some.injEq, Event.httpSetup.injEq] at hhd
    exact absurd hhd.1.symm he

theorem http_setup_failure_immediate_setup_callback_witness :
    (run (initState true 1) [Event.httpSetup 7 false 0]).2
      = [Call.setup false 7 AWS_HTTP_STATUS_UNKNOWN []] ∧
    (run (initState true 1) [Event.httpSetup 7 false 0]).1.destroys = 1 ∧
    (∀ c ∈ (run (initState true 1) [Event.httpSetup 7 false 0]).2,
      isShutdownCall c = false) :=
  http_setup_failure_immediate_setup_callback true 1 [Event.httpSetup 7 false 0] 7 false 0
    (by decide) (Or.inl ⟨7, false, 0, by decide, rfl⟩) rfl
